import Mathlib

/-!
Verification development for the celo-identity contribution scoring and
on-chain execution pipeline.

JavaScript numbers are modelled by exact rationals; `Math.round` is
modelled by `jsRound` (round half towards positive infinity, which agrees
with `Math.round` on all rationals).  Strings are ASCII, and
`String.prototype.toLowerCase` is modelled on the ASCII range by
`jsToLower`.  External collaborators (the GitHub identity source, the
Gemini advisory oracle, the Supabase store and the Celo ledger) are
modelled as explicit outcome parameters, so that every repository function
becomes a pure, executable Lean definition.
-/

/-- Model of JavaScript `Math.round`: round half away from zero for
non-negative inputs, i.e. round half towards positive infinity, which is
exactly `Math.round` semantics for every real argument. -/
def jsRound (q : ℚ) : ℤ := (q + 1 / 2).floor

/-- ASCII lower-casing of one character, as done by
`String.prototype.toLowerCase` on the ASCII range (the only characters
appearing in addresses and tier names). -/
def lowerChar (c : Char) : Char :=
  if 'A' ≤ c ∧ c ≤ 'Z' then Char.ofNat (c.toNat + 32) else c

/-- Model of `String.prototype.toLowerCase` on ASCII strings. -/
def jsToLower (s : String) : String := String.mk (s.toList.map lowerChar)

/-- The hexadecimal digit character for a value below 16 (lower case, as
produced by Node's `Buffer.prototype.toString("hex")`). -/
def hexDig (n : ℕ) : Char :=
  if n < 10 then Char.ofNat (48 + n) else Char.ofNat (87 + n)

/-- Model of `Buffer.from(s).toString("hex")` for ASCII strings: each
character becomes the two hex digits of its code point (code points below
128 are one UTF-8 byte). -/
def strToHexChars (s : String) : List Char :=
  s.toList.flatMap (fun c => [hexDig (c.toNat / 16 % 16), hexDig (c.toNat % 16)])

/-- Numeric value of one hexadecimal digit character. -/
def hexCharVal (c : Char) : ℕ :=
  if '0' ≤ c ∧ c ≤ '9' then c.toNat - 48
  else if 'a' ≤ c ∧ c ≤ 'f' then c.toNat - 87
  else if 'A' ≤ c ∧ c ≤ 'F' then c.toNat - 55
  else 0

/-- Value of a big-endian hexadecimal digit string, as computed by
JavaScript `BigInt("0x" + h)`. -/
def hexToNat (h : List Char) : ℕ :=
  h.foldl (fun acc c => 16 * acc + hexCharVal c) 0

/-- Whether `pat` occurs as a contiguous substring of the character
list `s` (used to ask whether an error message mentions a step name). -/
def listMentions (pat : List Char) : List Char → Bool
  | [] => pat.isEmpty
  | a :: rest => pat.isPrefixOf (a :: rest) || listMentions pat rest

/-- Whether the string `s` mentions the token `pat` as a substring. -/
def strMentions (pat s : String) : Bool := listMentions pat.toList s.toList

/-- Column-merge semantics of a keyed-store `update`: a column present in
the payload overwrites, an absent column keeps the stored value. -/
def mergeCol (payload old : Option String) : Option String :=
  match payload with
  | some v => some v
  | none => old

/-! ## Data model of `lib/github.ts` -/

/-- One entry of `topRepos` in `lib/github.ts` (`RepoContribution`). -/
structure RepoContribution where
  name : String
  language : String
  stars : ℕ
  description : String
  isOwned : Bool
  url : String
deriving DecidableEq, Repr

/-- One detected ecosystem repository (`CeloContribution` in
`lib/github.ts`). -/
structure CeloContribution where
  repoName : String
  url : String
  isCeloRepo : Bool
  contributionCount : ℕ
  isFork : Bool
  stars : ℕ
  language : String
deriving DecidableEq, Repr

/-- The activity signal produced by `analyzeGitHubLink`
(`ContributionAnalysis` in `lib/github.ts`). -/
structure ContributionAnalysis where
  username : String
  totalRepos : ℕ
  followers : ℕ
  languages : List String
  topRepos : List RepoContribution
  totalCommits : ℕ
  averageRepoSize : ℕ
  specialties : List String
  celoContributions : List CeloContribution
  hasCeloContribution : Bool
  celoContributionCount : ℕ
  detectedWallet : Option String
  walletFormatValid : Bool
  bioContainsWallet : Bool
deriving DecidableEq, Repr

/-- The relations `analyzeGitHubLink` establishes between the derived
fields of a `ContributionAnalysis`: `hasCeloContribution` records whether
any ecosystem repository was detected, and `celoContributionCount` is the
total commit count over the detected repositories. -/
def ContributionAnalysis.wf (a : ContributionAnalysis) : Prop :=
  a.hasCeloContribution = !a.celoContributions.isEmpty ∧
  a.celoContributionCount = (a.celoContributions.map (·.contributionCount)).sum

instance (a : ContributionAnalysis) : Decidable a.wf := by
  unfold ContributionAnalysis.wf; infer_instance

/-! ## `lib/ai-verify.ts` -/

/-- Result shape of the advisory verifier (`AIVerificationResult`). -/
structure AIVerificationResult where
  authentic : Bool
  impactScore : ℚ
  qualityScore : ℚ
  authenticity : ℚ
  finalScore : ℚ
  reasoning : String
  keyFindings : List String
  recommendation : String
  walletVerificationBonus : Option ℚ := none
deriving DecidableEq, Repr

/-- A JSON object parsed out of a Gemini response; every field may be
missing, and numeric fields may be arbitrary (they are defensively
defaulted with `|| 0` and clamped by the caller). -/
structure ParsedOracle where
  authentic : Bool
  authenticity : Option ℚ
  impactScore : Option ℚ
  qualityScore : Option ℚ
  finalScore : Option ℚ
  reasoning : Option String
  keyFindings : Option (List String)
  recommendation : Option String
deriving DecidableEq, Repr

/-- Outcome of the external Gemini call as observed by `verifyWithAI`:
the API key may be absent, the transport may fail, the response may be
non-2xx, the body may carry no content or no parsable JSON object, or a
JSON object may be obtained. -/
inductive OracleOutcome where
  | noKey
  | transportError
  | httpError
  | noContent
  | unparsable
  | parsed (r : ParsedOracle)
deriving DecidableEq, Repr

/-- Whether the oracle outcome is one of the unavailability cases (no
key, transport failure, non-2xx response, or unparsable output). -/
def OracleOutcome.unavailable : OracleOutcome → Bool
  | .parsed _ => false
  | _ => true

/-- `generateDefaultVerification` from `lib/ai-verify.ts`: the
deterministic fallback opinion used whenever the oracle is unavailable.
If no ecosystem repository was detected the opinion is an all-zero
reject; otherwise the heuristic formula over stars, commits, followers
and languages is used.  The `type` parameter is accepted and unused, as
in the source. -/
def generateDefaultVerification (analysis : ContributionAnalysis) (type : String) :
    AIVerificationResult :=
  if !analysis.hasCeloContribution then
    { authentic := true
      impactScore := 0
      qualityScore := 0
      authenticity := 0
      finalScore := 0
      reasoning := "User has no contributions to Celo ecosystem. Celo contribution history is required."
      keyFindings :=
        [ "No Celo-related repositories found",
          "Requires contributions to celo, celo-org, or Celo-related projects",
          "Focus areas: " ++ String.intercalate ", " analysis.specialties ]
      recommendation := "reject" }
  else
    let repoQuality : ℚ :=
      ((analysis.celoContributions.map (fun r => min (r.stars : ℚ) 100)).sum) /
        (analysis.celoContributions.length : ℚ)
    let commitImpact : ℚ := min 100 ((analysis.celoContributionCount : ℚ) * 5)
    let impactScore : ℚ := min 100 ((analysis.followers : ℚ) * 1.5 + commitImpact * 0.4)
    let qualityScore : ℚ := min 100 (repoQuality + (analysis.languages.length : ℚ) * 8)
    let authenticScore : ℚ :=
      if analysis.celoContributionCount > 0 ∧ analysis.followers ≥ 0 then 90 else 75
    let finalScore : ℚ := impactScore * 0.3 + qualityScore * 0.3 + authenticScore * 0.4
    { authentic := decide (analysis.celoContributionCount > 0)
      impactScore := (jsRound impactScore : ℚ)
      qualityScore := (jsRound qualityScore : ℚ)
      authenticity := (jsRound authenticScore : ℚ)
      finalScore := (jsRound finalScore : ℚ)
      reasoning := "Celo contributor with " ++ toString analysis.celoContributionCount ++
        " commits across " ++ toString analysis.celoContributions.length ++
        " repos. Specializes in " ++ String.intercalate ", " analysis.specialties ++ "."
      keyFindings :=
        [ toString analysis.celoContributions.length ++ " Celo repositories with active contributions",
          toString analysis.celoContributionCount ++ " commits to Celo ecosystem",
          "Proficient in " ++ String.intercalate ", " (analysis.languages.take 3),
          toString analysis.followers ++ " community followers" ]
      recommendation :=
        if finalScore > 70 then "accept" else if finalScore > 50 then "review" else "reject" }

/-- `verifyWithAI` from `lib/ai-verify.ts`, with the external call
reified as an `OracleOutcome`.  Returns the verification result together
with a flag recording whether the Gemini endpoint was actually contacted.
With no API key the fallback runs immediately; otherwise a signal with no
detected ecosystem repository short-circuits to an all-zero reject
before the request is built; all failure modes of the request fall back
to `generateDefaultVerification`; a parsed response is defensively
defaulted and clamped to `[0,100]`. -/
def verifyWithAI (analysis : ContributionAnalysis) (contributionType : String)
    (oracle : OracleOutcome) : AIVerificationResult × Bool :=
  match oracle with
  | .noKey => (generateDefaultVerification analysis contributionType, false)
  | _ =>
    if !analysis.hasCeloContribution then
      ({ authentic := true
         impactScore := 0
         qualityScore := 0
         authenticity := 0
         finalScore := 0
         reasoning := "User has no contributions to Celo ecosystem. Celo contribution history is required for reputation scoring."
         keyFindings :=
           [ "No Celo-related repositories found in profile",
             "Required: Contributions to celo-org, celolabs, or Celo-related projects",
             "Current profile focuses on: " ++ String.intercalate ", " analysis.specialties ]
         recommendation := "reject" }, false)
    else
      match oracle with
      | .parsed result =>
        ({ authentic := result.authentic || decide ((result.authenticity.getD 0) > 50)
           impactScore := min 100 (max 0 (result.impactScore.getD 0))
           qualityScore := min 100 (max 0 (result.qualityScore.getD 0))
           authenticity := min 100 (max 0 (result.authenticity.getD 0))
           finalScore := min 100 (max 0 (result.finalScore.getD 0))
           reasoning := result.reasoning.getD "Analysis completed"
           keyFindings := result.keyFindings.getD []
           recommendation := result.recommendation.getD "review" }, true)
      | _ => (generateDefaultVerification analysis contributionType, true)

/-- `calculateFinalScore` from `lib/ai-verify.ts`: the pure score
calculator.  Zero oracle score or a reject recommendation gives 0; a
non-authentic profile gets a flat 25% penalty of the base score;
otherwise the three multipliers and the optional wallet bonus apply,
hard-capped at three times the base score.  `Math.round` makes the
result an integer. -/
def calculateFinalScore (aiResult : AIVerificationResult) (baseScore : ℚ)
    (walletVerified : Bool) : ℤ :=
  if aiResult.finalScore = 0 ∨ aiResult.recommendation = "reject" then 0
  else if aiResult.authentic = false then jsRound (baseScore * 0.25)
  else
    let impMult : ℚ := 1.0 + aiResult.impactScore / 150
    let qulMult : ℚ := 1.0 + aiResult.qualityScore / 160
    let auMult : ℚ := 1.0 + aiResult.authenticity / 200
    let score : ℚ := baseScore * impMult * qulMult * auMult
    let score2 : ℚ := if walletVerified then score * 1.20 else score
    jsRound (min score2 (baseScore * 3.0))

/-! ## `lib/scores.ts` -/

/-- The base-score table `BASE_SCORES` from `lib/scores.ts`. -/
def BASE_SCORES : List (String × ℕ) :=
  [ ("PR_MERGED", 25), ("COMMIT", 10), ("BUG_FIX", 20), ("DOCUMENTATION", 15),
    ("CODE_REVIEW", 12), ("POST_IMPACT", 30), ("OTHER", 10) ]

/-! ## `lib/supabase.ts` -/

/-- A stored user-tier row (`UserTier` in `lib/supabase.ts`). -/
structure UserTier where
  user_address : String
  current_tier : String
  total_score : ℤ
  builder_achieved_at : Option String := none
  contributor_achieved_at : Option String := none
  leader_achieved_at : Option String := none
  updated_at : Option String := none
deriving DecidableEq, Repr

/-- A row of the `contributions` table.  `created_at` and `verified_at`
timestamps are modelled as natural numbers so that "most recent" is
well defined. -/
structure ContributionRow where
  id : ℕ
  user_address : String
  contribution_type : String
  score : ℤ
  status : String
  on_chain_tx : Option String
  created_at : ℕ
  verified_at : Option ℕ
deriving DecidableEq, Repr

/-- The payload handed to `saveContribution`
(`StoredContribution` in `lib/supabase.ts`, persistence-relevant
columns). -/
structure StoredContribution where
  user_address : String
  contribution_type : String
  score : ℤ
  title : String
  description : String
  github_link : String
  status : String
deriving DecidableEq, Repr

/-- `saveContribution` from `lib/supabase.ts`, acting on the
`contributions` table.  After field validation the row is inserted with
`status` forced to `"pending"` (the caller's status is overwritten by
the `saveData` spread).  `configured` models whether Supabase
credentials exist and `dbInsertOk` whether the insert round-trip
succeeds; on any failure the table is unchanged.  Returns the success
flag and the new table. -/
def saveContribution (c : StoredContribution) (configured dbInsertOk : Bool)
    (table : List ContributionRow) (freshId now : ℕ) :
    Bool × List ContributionRow :=
  if !configured then (false, table)
  else if c.user_address = "" then (false, table)
  else if c.contribution_type = "" then (false, table)
  else if c.score < 0 then (false, table)
  else if c.github_link = "" then (false, table)
  else if dbInsertOk then
    (true, table ++
      [{ id := freshId
         user_address := jsToLower c.user_address
         contribution_type := c.contribution_type
         score := c.score
         status := "pending"
         on_chain_tx := none
         created_at := now
         verified_at := none }])
  else (false, table)

/-! Events observable at the boundaries of the pipeline: store writes,
ledger mutations and their confirmations. -/

/-- Externally observable effects of one submission. -/
inductive Ev where
  | dbSaveAttempted (ok : Bool)
  | dbTierUpdated (ok : Bool)
  | dbHistoryRecorded (ok : Bool)
  | scoreChainSubmitted (user : String) (amount : ℤ)
  | scoreChainConfirmed (tx : String)
  | recordVerifiedInDb (id : ℕ) (tx : String)
  | badgeMintSubmitted (user : String) (tokenId : ℕ)
  | badgeMintConfirmed (tx : String)
deriving DecidableEq, Repr

/-- `updateContributionWithTx` from `lib/supabase.ts`, acting on the
`contributions` table: fetch the pending rows of this user with the
given score, target the most recent one, and update it to
`status = "verified"` with the transaction hash recorded.  `dbOk`
models the update round-trip.  The returned flag reflects the
function's own post-validations (the recorded hash must be non-empty
and match). -/
def updateContributionWithTx (userAddress : String) (score : ℤ) (onChainTx : String)
    (configured dbOk : Bool) (table : List ContributionRow) (now : ℕ) :
    Bool × List ContributionRow × List Ev :=
  if !configured then (false, table, [])
  else
    let normalizedAddress := jsToLower userAddress
    let pendingContribs := table.filter
      (fun r => r.user_address == normalizedAddress && r.score == score && r.status == "pending")
    match pendingContribs.argmax (·.created_at) with
    | none => (false, table, [])
    | some target =>
      if dbOk then
        let newTable := table.map (fun r =>
          if r.id == target.id then
            { r with status := "verified", on_chain_tx := some onChainTx,
                     verified_at := some now }
          else r)
        (onChainTx != "", newTable, [Ev.recordVerifiedInDb target.id onChainTx])
      else (false, table, [])

/-- `updateUserTier` from `lib/supabase.ts`, as the merged row the store
holds after a successful round-trip.  The payload always carries the new
tier and score; achievement-timestamp columns are included only under
the source's three conditionals (`BUILDER` when previously unranked,
`CONTRIBUTOR` when not already a contributor — merging the builder
timestamp as `existing ?? now` — and `LEADER` unconditionally, merging
builder and contributor as `existing ?? now`).  Columns absent from the
payload keep their stored value; with no existing row the payload is
inserted as-is. -/
def updateUserTier (existing : Option UserTier) (userAddress : String)
    (newScore : ℤ) (newTier : String) (now : String) : UserTier :=
  let address := jsToLower userAddress
  let currentTier := match existing with | some e => e.current_tier | none => ""
  let builderP : Option String :=
    if newTier = "BUILDER" ∧ (existing.isNone ∨ currentTier = "UNRANKED") then
      some now
    else if newTier = "CONTRIBUTOR" ∧ (existing.isNone ∨ currentTier ≠ "CONTRIBUTOR") then
      some ((existing.bind (fun e => e.builder_achieved_at)).getD now)
    else if newTier = "LEADER" then
      some ((existing.bind (fun e => e.builder_achieved_at)).getD now)
    else none
  let contributorP : Option String :=
    if newTier = "CONTRIBUTOR" ∧ (existing.isNone ∨ currentTier ≠ "CONTRIBUTOR") then
      some now
    else if newTier = "LEADER" then
      some ((existing.bind (fun e => e.contributor_achieved_at)).getD now)
    else none
  let leaderP : Option String := if newTier = "LEADER" then some now else none
  match existing with
  | some e =>
    { user_address := address
      current_tier := newTier
      total_score := newScore
      builder_achieved_at := mergeCol builderP e.builder_achieved_at
      contributor_achieved_at := mergeCol contributorP e.contributor_achieved_at
      leader_achieved_at := mergeCol leaderP e.leader_achieved_at
      updated_at := some now }
  | none =>
    { user_address := address
      current_tier := newTier
      total_score := newScore
      builder_achieved_at := builderP
      contributor_achieved_at := contributorP
      leader_achieved_at := leaderP
      updated_at := some now }

/-- Rank of a tier name, following the fixed thresholds
(`UNRANKED < BUILDER < CONTRIBUTOR < LEADER`; unknown strings rank with
`UNRANKED`). -/
def tierRank (tier : String) : ℕ :=
  if tier = "LEADER" then 3
  else if tier = "CONTRIBUTOR" then 2
  else if tier = "BUILDER" then 1
  else 0

/-! ## `app/api/contributions/submit/route.ts` -/

/-- The JSON body of a submission request; absent fields are the empty
string, matching JavaScript falsiness of missing or empty values. -/
structure SubmitBody where
  address : String
  type : String
  title : String
  description : String
  link : String
deriving DecidableEq, Repr

/-- Outcomes of the Supabase operations the route performs. -/
structure DbEnv where
  configured : Bool
  saveInsertOk : Bool
  tierLookup : Option UserTier
  tierUpdateOk : Bool
  historyOk : Bool
deriving DecidableEq, Repr

/-- A JSON response of the route: an error with HTTP status, or the
success payload (`score`, `newTotalScore`, `newTier`, the contribution's
reported status, and the verifier's recommendation). -/
inductive PostResponse where
  | jsonError (status : ℕ) (message : String)
  | jsonOk (score : ℤ) (newTotalScore : ℤ) (newTier : String)
      (contributionStatus : String) (recommendation : String)
deriving DecidableEq, Repr

/-- The tier recomputation inlined in the route
(`newTotalScore >= 700 → LEADER`, etc.). -/
def newTierFor (newTotalScore : ℤ) : String :=
  if newTotalScore ≥ 700 then "LEADER"
  else if newTotalScore ≥ 300 then "CONTRIBUTOR"
  else if newTotalScore ≥ 100 then "BUILDER"
  else "UNRANKED"

/-- The ownership comparison of the route (line 63): two addresses match
exactly when their lower-cased forms coincide. -/
def walletMatch (normalizedProvided bioWallet : String) : Bool :=
  jsToLower normalizedProvided == jsToLower bioWallet

/-- The `POST` handler of `app/api/contributions/submit/route.ts`.
`getAddr` reifies `ethers.getAddress` (returning `none` when it throws),
`analysisResult` the outcome of `analyzeGitHubLink`, `oracle` the Gemini
call, and `db` the Supabase round-trips.  Returns the JSON response, the
`contributions` table after the handler, and the store/ledger events it
caused.  Persistence failures after verification are logged only and do
not alter the response. -/
def POST (getAddr : String → Option String) (body : SubmitBody)
    (analysisResult : Option ContributionAnalysis) (oracle : OracleOutcome)
    (db : DbEnv) (table : List ContributionRow) (freshId now : ℕ) :
    PostResponse × List ContributionRow × List Ev :=
  if body.address = "" ∨ body.type = "" ∨ body.link = "" then
    (.jsonError 400 "address, type and github link are required for AI verification", table, [])
  else if (BASE_SCORES.lookup body.type).isNone then
    (.jsonError 400 "Invalid contribution type", table, [])
  else
    match analysisResult with
    | none =>
      (.jsonError 400 "Could not analyze GitHub profile. Please ensure the link is valid.", table, [])
    | some githubAnalysis =>
      match githubAnalysis.detectedWallet with
      | none =>
        (.jsonError 400 "Please add your wallet address (0x...) to your GitHub bio so we can verify ownership.", table, [])
      | some bioWallet =>
        match getAddr body.address with
        | none =>
          (.jsonError 400 "Wallet address format invalid (must be valid Ethereum address)", table, [])
        | some normalizedProvided =>
          if walletMatch normalizedProvided bioWallet = false then
            (.jsonError 400 "Wallet in GitHub bio does not match provided wallet.", table, [])
          else
            let aiResult := (verifyWithAI githubAnalysis body.type oracle).1
            let baseScore : ℕ := (BASE_SCORES.lookup body.type).getD 0
            let walletIsVerified := walletMatch normalizedProvided bioWallet
            let finalScore := calculateFinalScore aiResult (baseScore : ℚ) walletIsVerified
            if finalScore = 0 ∨ aiResult.recommendation = "reject" then
              (.jsonError 400
                (if aiResult.reasoning = "" then
                  "Contribution does not meet verification requirements. Ensure your GitHub profile has contributions to Celo ecosystem projects."
                 else aiResult.reasoning), table, [])
            else
              let contributionStatus :=
                if aiResult.recommendation = "accept" then "verified" else "pending"
              let savePair := saveContribution
                { user_address := jsToLower normalizedProvided
                  contribution_type := body.type
                  score := finalScore
                  title := if body.title = "" then githubAnalysis.username else body.title
                  description :=
                    if body.description = "" then
                      "Verified contributor: " ++ String.intercalate ", " githubAnalysis.specialties
                    else body.description
                  github_link := body.link
                  status := contributionStatus }
                db.configured db.saveInsertOk table freshId now
              let currentTotalScore := (db.tierLookup.map (·.total_score)).getD 0
              let newTotalScore := currentTotalScore + finalScore
              let newTier := newTierFor newTotalScore
              (.jsonOk finalScore newTotalScore newTier contributionStatus aiResult.recommendation,
               savePair.2,
               [Ev.dbSaveAttempted savePair.1, Ev.dbTierUpdated db.tierUpdateOk,
                Ev.dbHistoryRecorded db.historyOk])

/-! ## `lib/badge-minting.ts` (client-side minting) -/

namespace BadgeMinting

/-- The client-side tier thresholds (`TIER_CONFIG`). -/
def getTierForScore (score : ℤ) : Option String :=
  if score ≥ 700 then some "LEADER"
  else if score ≥ 300 then some "CONTRIBUTOR"
  else if score ≥ 100 then some "BUILDER"
  else none

/-- The client-side `generateBadgeTokenId` from `lib/badge-minting.ts`:
hex-encode `userAddress.toLowerCase() + tier` and read the first 62 hex
characters as a big integer. -/
def generateBadgeTokenId (userAddress tier : String) : ℕ :=
  hexToNat ((strToHexChars (jsToLower userAddress ++ tier)).take 62)

/-- `mintBadge` from `lib/badge-minting.ts`, with the wallet-provider
mutation reified as `mintOutcome`.  Returns whether minting succeeded
together with the observable ledger events. -/
def mintBadge (userAddress : String) (totalScore : ℤ)
    (mintOutcome : Except String String) : Bool × List Ev :=
  match getTierForScore totalScore with
  | none => (false, [])
  | some tier =>
    let tokenId := generateBadgeTokenId userAddress tier
    match mintOutcome with
    | .error _ => (false, [Ev.badgeMintSubmitted userAddress tokenId])
    | .ok tx => (true, [Ev.badgeMintSubmitted userAddress tokenId, Ev.badgeMintConfirmed tx])

end BadgeMinting

/-! ## `components/submit-contribution.tsx` — the client continuation -/

/-- Outcomes of the ledger operations the client performs after a
successful submission response: the score-increase transaction
(`updateOnChainScore`), the Supabase status update round-trip, and the
badge mint. -/
structure ClientChainEnv where
  scoreUpdateOutcome : Except String String
  contribUpdateOk : Bool
  mintOutcome : Except String String
deriving Repr

/-- The client continuation of `handleSubmit` in
`components/submit-contribution.tsx`: on a non-ok response nothing
happens; otherwise, when the returned score is positive and the
recommendation is not `reject`, the score is submitted on-chain, and on
confirmation the stored contribution is marked verified via
`updateContributionWithTx` and, when the new total reaches 100, a badge
mint is attempted. -/
def clientAfterSubmit (address : String) (resp : PostResponse)
    (chain : ClientChainEnv) (dbConfigured : Bool)
    (table : List ContributionRow) (now : ℕ) :
    List ContributionRow × List Ev :=
  match resp with
  | .jsonError _ _ => (table, [])
  | .jsonOk score newTotalScore _ _ recommendation =>
    if score > 0 ∧ recommendation ≠ "reject" then
      match chain.scoreUpdateOutcome with
      | .error _ => (table, [Ev.scoreChainSubmitted address score])
      | .ok tx =>
        let upd := updateContributionWithTx address score tx dbConfigured
          chain.contribUpdateOk table now
        let mintPart : List Ev :=
          if newTotalScore ≥ 100 then
            (BadgeMinting.mintBadge address newTotalScore chain.mintOutcome).2
          else []
        (upd.2.1,
         [Ev.scoreChainSubmitted address score, Ev.scoreChainConfirmed tx] ++
           upd.2.2 ++ mintPart)
    else (table, [])

/-- One full submission: the `POST` route followed by the client
continuation, returning the response, the final `contributions` table
and the concatenated event trace. -/
def submitPipeline (getAddr : String → Option String) (body : SubmitBody)
    (analysisResult : Option ContributionAnalysis) (oracle : OracleOutcome)
    (db : DbEnv) (chain : ClientChainEnv) (table : List ContributionRow)
    (freshId now now2 : ℕ) : PostResponse × List ContributionRow × List Ev :=
  let server := POST getAddr body analysisResult oracle db table freshId now
  let client := clientAfterSubmit body.address server.1 chain db.configured server.2.1 now2
  (server.1, client.1, server.2.2 ++ client.2)

/-! ## `src/agent` — autonomous executor -/

namespace Agent

/-- A contribution as the agent sees it (`Contribution` in
`agent/types.ts`); the union types are modelled as strings. -/
structure Contribution where
  user : String
  type : String
  description : String
  repo : Option String := none
  pr : Option ℕ := none
  timestamp : ℕ
  source : String
deriving DecidableEq, Repr

/-- The executor's result record (`ExecutionResult` in
`agent/types.ts`). -/
structure ExecutionResult where
  success : Bool
  registryTx : Option String := none
  scoreTx : Option String := none
  badgeTx : Option String := none
  error : Option String := none
deriving DecidableEq, Repr

/-- `checkTierQualification` from `agent/scorer.ts`: the tier a total
score qualifies for, or `none` below the `BUILDER` threshold. -/
def checkTierQualification (totalScore : ℤ) : Option String :=
  if totalScore ≥ 700 then some "LEADER"
  else if totalScore ≥ 300 then some "CONTRIBUTOR"
  else if totalScore ≥ 100 then some "BUILDER"
  else none

/-- Visual style of a tier badge (`TierStyle` in `agent/badges.ts`). -/
structure TierStyle where
  color : String
  bgColor : String
  description : String
deriving DecidableEq, Repr

/-- The `tierStyles` record from `agent/badges.ts` (total over the three
`ReputationTier` values; other strings cannot occur through the typed
record). -/
def tierStyles (tier : String) : TierStyle :=
  if tier = "CONTRIBUTOR" then
    { color := "#2DCCFF", bgColor := "#0F172A", description := "Active Contributor" }
  else if tier = "LEADER" then
    { color := "#FFB84D", bgColor := "#0F172A", description := "Community Leader" }
  else
    { color := "#35D07F", bgColor := "#0F172A", description := "Early Contributor" }

/-- `generateBadgeSVG` from `agent/badges.ts`: the trimmed SVG text with
the tier's colours and labels interpolated. -/
def generateBadgeSVG (tier : String) : String :=
  let style := tierStyles tier
  "<svg width=\"300\" height=\"300\" viewBox=\"0 0 300 300\" xmlns=\"http://www.w3.org/2000/svg\">\n" ++
  "  <!-- Background -->\n" ++
  "  <rect width=\"300\" height=\"300\" fill=\"" ++ style.bgColor ++ "\"/>\n  \n" ++
  "  <!-- Border -->\n" ++
  "  <rect width=\"300\" height=\"300\" fill=\"none\" stroke=\"" ++ style.color ++
    "\" stroke-width=\"3\" rx=\"20\"/>\n  \n" ++
  "  <!-- Title -->\n" ++
  "  <text x=\"150\" y=\"100\" font-size=\"28\" font-weight=\"bold\" fill=\"" ++ style.color ++
    "\" \n        text-anchor=\"middle\" font-family=\"system-ui, sans-serif\">\n    CELOCRED\n  </text>\n  \n" ++
  "  <!-- Tier Name -->\n" ++
  "  <text x=\"150\" y=\"150\" font-size=\"32\" font-weight=\"bold\" fill=\"" ++ style.color ++
    "\" \n        text-anchor=\"middle\" font-family=\"system-ui, sans-serif\">\n    " ++ tier ++ "\n  </text>\n  \n" ++
  "  <!-- Description -->\n" ++
  "  <text x=\"150\" y=\"200\" font-size=\"14\" fill=\"" ++ style.color ++
    "\" \n        text-anchor=\"middle\" font-family=\"system-ui, sans-serif\" opacity=\"0.8\">\n    " ++
    style.description ++ "\n  </text>\n  \n" ++
  "  <!-- Celo branding -->\n" ++
  "  <circle cx=\"150\" cy=\"250\" r=\"8\" fill=\"" ++ style.color ++ "\"/>\n" ++
  "  <text x=\"150\" y=\"268\" font-size=\"12\" fill=\"" ++ style.color ++
    "\" \n        text-anchor=\"middle\" font-family=\"system-ui, sans-serif\" opacity=\"0.6\">\n    Verified on Celo\n  </text>\n</svg>"

/-- The base64 alphabet character for a 6-bit value. -/
def b64Char (n : ℕ) : Char :=
  (("ABCDEFGHIJKLMNOPQRSTUVWXYZabcdefghijklmnopqrstuvwxyz0123456789+/").toList).getD n '='

/-- Standard base64 of a byte list, as produced by
`Buffer.prototype.toString("base64")`. -/
def b64Encode : List ℕ → List Char
  | [] => []
  | [a] => [b64Char (a / 4), b64Char (a % 4 * 16), '=', '=']
  | [a, b] => [b64Char (a / 4), b64Char (a % 4 * 16 + b / 16), b64Char (b % 16 * 4), '=']
  | a :: b :: c :: rest =>
    [b64Char (a / 4), b64Char (a % 4 * 16 + b / 16), b64Char (b % 16 * 4 + c / 64),
     b64Char (c % 64)] ++ b64Encode rest

/-- `encodeBadgeSVG` from `agent/badges.ts`: base64 data URI of the SVG
(ASCII bytes). -/
def encodeBadgeSVG (svg : String) : String :=
  "data:image/svg+xml;base64," ++ String.mk (b64Encode (svg.toList.map Char.toNat))

/-- The agent-side `generateBadgeTokenId` from `agent/badges.ts`:
hex-encode `userAddress.toLowerCase() + tier` and read the first 64 hex
characters as a big integer. -/
def generateBadgeTokenId (userAddress tier : String) : ℕ :=
  hexToNat ((strToHexChars (jsToLower userAddress ++ tier)).take 64)

/-- One mutating ledger call attempted by the executor. -/
inductive ChainCall where
  | registerContribution (user : String) (proofHash : String) (score : ℤ)
  | increaseScore (user : String) (amount : ℤ)
  | mintBadge (user : String) (tokenId : ℕ) (uri : String) (tier : String)
deriving DecidableEq, Repr

/-- Confirmation outcomes of the three ledger mutations, as the
`tx.wait()` calls observe them: an error message when submission or
confirmation throws, or the receipt's transaction hash. -/
structure ChainEnv where
  registryOutcome : Except String String
  scoreOutcome : Except String String
  badgeOutcome : Except String String
deriving Repr

/-- Whether a call list contains a badge-mint attempt. -/
def mintAttempted (calls : List ChainCall) : Bool :=
  calls.any (fun c => match c with | .mintBadge _ _ _ _ => true | _ => false)

/-- `executeOnchain` from `agent/executor.ts`, with `ethers.keccak256`
of the JSON payload reified as `hashJson` and the ledger reified as
`env`.  The three steps run in sequence inside one try/catch: a failing
step stores the raw error message and stops, leaving earlier
transaction hashes in place (no rollback); badge qualification is
decided by `checkTierQualification newTotalScore` alone
(`currentTotalScore` is accepted and never used, as in the source).
Returns the result record and the list of ledger calls attempted. -/
def executeOnchain (hashJson : Contribution → String) (contribution : Contribution)
    (scoreDelta : ℤ) (currentTotalScore newTotalScore : ℤ) (env : ChainEnv) :
    ExecutionResult × List ChainCall :=
  let proofHash := hashJson contribution
  let registerCall := ChainCall.registerContribution contribution.user proofHash scoreDelta
  match env.registryOutcome with
  | .error e => ({ success := false, error := some e }, [registerCall])
  | .ok registryTx =>
    let increaseCall := ChainCall.increaseScore contribution.user scoreDelta
    match env.scoreOutcome with
    | .error e =>
      ({ success := false, registryTx := some registryTx, error := some e },
       [registerCall, increaseCall])
    | .ok scoreTx =>
      match checkTierQualification newTotalScore with
      | none =>
        ({ success := true, registryTx := some registryTx, scoreTx := some scoreTx },
         [registerCall, increaseCall])
      | some qualifyingTier =>
        let svg := generateBadgeSVG qualifyingTier
        let uri := encodeBadgeSVG svg
        let tokenId := generateBadgeTokenId contribution.user qualifyingTier
        let mintCall := ChainCall.mintBadge contribution.user tokenId uri qualifyingTier
        match env.badgeOutcome with
        | .error e =>
          ({ success := false, registryTx := some registryTx, scoreTx := some scoreTx,
             error := some e },
           [registerCall, increaseCall, mintCall])
        | .ok badgeTx =>
          ({ success := true, registryTx := some registryTx, scoreTx := some scoreTx,
             badgeTx := some badgeTx },
           [registerCall, increaseCall, mintCall])

end Agent

/-! ## Named forms of the fallback formula

`fallback*` are the values computed inside the non-empty branch of
`generateDefaultVerification`, named so theorems can speak about them;
`specFallbackQuality` is, for comparison, the quality formula exactly as
the specification words it. -/

/-- Average of the per-repository star counts, each first capped at 100
(`repoQuality` in `generateDefaultVerification`). -/
def fallbackRepoQuality (a : ContributionAnalysis) : ℚ :=
  ((a.celoContributions.map (fun r => min (r.stars : ℚ) 100)).sum) /
    (a.celoContributions.length : ℚ)

/-- The fallback impact score before rounding:
`min 100 (followers × 1.5 + min (commits × 5) 100 × 0.4)`. -/
def fallbackImpact (a : ContributionAnalysis) : ℚ :=
  min 100 ((a.followers : ℚ) * 1.5 + (min 100 ((a.celoContributionCount : ℚ) * 5)) * 0.4)

/-- The fallback quality score before rounding:
`min 100 (cappedAvgStars + languages × 8)`. -/
def fallbackQuality (a : ContributionAnalysis) : ℚ :=
  min 100 (fallbackRepoQuality a + (a.languages.length : ℚ) * 8)

/-- The fallback authenticity score: 90 when ecosystem commits exist,
else 75. -/
def fallbackAuthenticity (a : ContributionAnalysis) : ℚ :=
  if a.celoContributionCount > 0 ∧ a.followers ≥ 0 then 90 else 75

/-- The fallback weighted final score before rounding. -/
def fallbackFinal (a : ContributionAnalysis) : ℚ :=
  fallbackImpact a * 0.3 + fallbackQuality a * 0.3 + fallbackAuthenticity a * 0.4

/-- The fallback recommendation, thresholded on the unrounded final
score. -/
def fallbackRecommendation (a : ContributionAnalysis) : String :=
  if fallbackFinal a > 70 then "accept" else if fallbackFinal a > 50 then "review" else "reject"

/-- The quality formula exactly as the specification words it:
`clamp(avgRepoStars + languages × 8, 0, 100)` with the plain
(uncapped) average of repository stars. -/
def specFallbackQuality (a : ContributionAnalysis) : ℚ :=
  min 100 (max 0
    (((a.celoContributions.map (fun r => (r.stars : ℚ))).sum) /
        (a.celoContributions.length : ℚ) +
      (a.languages.length : ℚ) * 8))

/-! ## Concrete fixtures used by witnesses and counterexamples -/

/-- A detected ecosystem repository carrying zero commits (the commit
probe returns 0, e.g. on a non-2xx listing response). -/
def repoZeroCommits : CeloContribution :=
  { repoName := "celo-starter", url := "https://github.com/alice/celo-starter",
    isCeloRepo := false, contributionCount := 0, isFork := false, stars := 0,
    language := "TypeScript" }

/-- A well-formed signal with one detected ecosystem repository but a
total ecosystem commit count of zero. -/
def analysisZeroCommits : ContributionAnalysis :=
  { username := "alice", totalRepos := 1, followers := 0, languages := [],
    topRepos := [], totalCommits := 0, averageRepoSize := 0,
    specialties := ["General Development"], celoContributions := [repoZeroCommits],
    hasCeloContribution := true, celoContributionCount := 0,
    detectedWallet := none, walletFormatValid := false, bioContainsWallet := false }

/-- A signal with no detected ecosystem repository at all. -/
def analysisNoRepos : ContributionAnalysis :=
  { username := "dave", totalRepos := 4, followers := 7, languages := ["Python"],
    topRepos := [], totalCommits := 12, averageRepoSize := 3,
    specialties := ["Data Science"], celoContributions := [],
    hasCeloContribution := false, celoContributionCount := 0,
    detectedWallet := none, walletFormatValid := false, bioContainsWallet := false }

/-- A syntactically valid parsed oracle response. -/
def parsedOracleSample : ParsedOracle :=
  { authentic := true, authenticity := some 80, impactScore := some 60,
    qualityScore := some 70, finalScore := some 72, reasoning := some "ok",
    keyFindings := some [], recommendation := some "accept" }

/-- A signal with one 200-star repository and one 0-star repository,
exhibiting the per-repository star cap of the fallback quality score. -/
def analysisStarCap : ContributionAnalysis :=
  { username := "bob", totalRepos := 2, followers := 0, languages := [],
    topRepos := [], totalCommits := 0, averageRepoSize := 0,
    specialties := ["General Development"],
    celoContributions :=
      [ { repoName := "celo-big", url := "https://github.com/bob/celo-big",
          isCeloRepo := true, contributionCount := 1, isFork := false,
          stars := 200, language := "Go" },
        { repoName := "celo-small", url := "https://github.com/bob/celo-small",
          isCeloRepo := true, contributionCount := 0, isFork := false,
          stars := 0, language := "Go" } ],
    hasCeloContribution := true, celoContributionCount := 1,
    detectedWallet := none, walletFormatValid := false, bioContainsWallet := false }

/-- A signal that passes verification with an `accept` recommendation
under the fallback formula. -/
def analysisAccepted : ContributionAnalysis :=
  { username := "carol", totalRepos := 3, followers := 100, languages := ["TypeScript"],
    topRepos := [], totalCommits := 10, averageRepoSize := 10,
    specialties := ["Web Development"],
    celoContributions :=
      [ { repoName := "celo-app", url := "https://github.com/carol/celo-app",
          isCeloRepo := true, contributionCount := 10, isFork := false,
          stars := 50, language := "TypeScript" } ],
    hasCeloContribution := true, celoContributionCount := 10,
    detectedWallet := some "0xAbCd000000000000000000000000000000000001",
    walletFormatValid := true, bioContainsWallet := true }

/-- A request body whose address matches `analysisAccepted`'s bio wallet
up to letter case. -/
def bodyAccepted : SubmitBody :=
  { address := "0xabcd000000000000000000000000000000000001", type := "COMMIT",
    title := "", description := "", link := "https://github.com/carol" }

/-- A request body whose address does not match `analysisAccepted`'s bio
wallet. -/
def bodyMismatch : SubmitBody :=
  { address := "0xdddd000000000000000000000000000000000001", type := "COMMIT",
    title := "", description := "", link := "https://github.com/carol" }

/-- The identity model of `ethers.getAddress` (a checksum function that
changes nothing; any checksum function only changes letter case). -/
def getAddrId : String → Option String := fun s => some s

/-- A store environment where every Supabase round-trip succeeds and no
tier row exists yet. -/
def dbEnvAllOk : DbEnv :=
  { configured := true, saveInsertOk := true, tierLookup := none,
    tierUpdateOk := true, historyOk := true }

/-- A store environment where every persistence write fails. -/
def dbEnvAllFail : DbEnv :=
  { configured := true, saveInsertOk := false, tierLookup := none,
    tierUpdateOk := false, historyOk := false }

/-- A client environment where the score transaction confirms and the
store update succeeds. -/
def clientChainAllOk : ClientChainEnv :=
  { scoreUpdateOutcome := .ok "0xscoretx", contribUpdateOk := true,
    mintOutcome := .ok "0xbadgetx" }

/-- A sample 42-character address. -/
def sampleAddr : String := "0xaaaaaaaaaaaaaaaaaaaaaaaaaaaaaaaaaaaaaaaa"

/-- A sample agent-side contribution. -/
def agentContributionSample : Agent.Contribution :=
  { user := sampleAddr, type := "COMMIT",
    description := "critical refactor of the staking module",
    timestamp := 1700000000, source := "github" }

/-- A constant stand-in for `ethers.keccak256` over the JSON payload
(the executor treats the hash as opaque). -/
def hashJsonConst : Agent.Contribution → String := fun _ => "0xproofhash"

/-- A ledger where all three mutations confirm. -/
def chainEnvAllOk : Agent.ChainEnv :=
  { registryOutcome := .ok "0xreg", scoreOutcome := .ok "0xscore",
    badgeOutcome := .ok "0xbadge" }

/-- A ledger where registration confirms and the score increase fails
with a raw cause message. -/
def chainEnvScoreFail : Agent.ChainEnv :=
  { registryOutcome := .ok "0xreg", scoreOutcome := .error "boom",
    badgeOutcome := .ok "0xbadge" }

/-- A stored tier row of a user who reached `LEADER` at time `t3`. -/
def userTierLeaderRow : UserTier :=
  { user_address := "0xaaaa000000000000000000000000000000000001",
    current_tier := "LEADER", total_score := 800,
    builder_achieved_at := some "t1", contributor_achieved_at := some "t2",
    leader_achieved_at := some "t3", updated_at := some "t3" }

/-- A stored tier row of a user who reached `CONTRIBUTOR` at time
`t2`. -/
def userTierContributorRow : UserTier :=
  { user_address := "0xaaaa000000000000000000000000000000000002",
    current_tier := "CONTRIBUTOR", total_score := 350,
    builder_achieved_at := some "t1", contributor_achieved_at := some "t2",
    leader_achieved_at := none, updated_at := some "t2" }

/-- A sample verifier opinion with mid-range scores. -/
def aiResultSample : AIVerificationResult :=
  { authentic := true, impactScore := 50, qualityScore := 40, authenticity := 90,
    finalScore := 60, reasoning := "solid work", keyFindings := [],
    recommendation := "review" }

/-- A signal that carries a bio wallet but is rejected by the fallback
verifier (one detected repository, zero commits: final score 30,
recommendation `reject`). -/
def analysisRejected : ContributionAnalysis :=
  { username := "erin", totalRepos := 1, followers := 0, languages := [],
    topRepos := [], totalCommits := 0, averageRepoSize := 0,
    specialties := ["General Development"], celoContributions := [repoZeroCommits],
    hasCeloContribution := true, celoContributionCount := 0,
    detectedWallet := some "0xeeee000000000000000000000000000000000001",
    walletFormatValid := true, bioContainsWallet := true }

/-- A request body matching `analysisRejected`'s bio wallet. -/
def bodyRejected : SubmitBody :=
  { address := "0xeeee000000000000000000000000000000000001", type := "COMMIT",
    title := "", description := "", link := "https://github.com/erin" }

/-! ## Helper lemmas -/

/-- `jsRound` agrees with rounding via the floor of the ordered field
structure. -/
theorem jsRound_eq_floor (q : ℚ) : jsRound q = ⌊q + 1 / 2⌋ := rfl

/-- `jsRound` is monotone. -/
theorem jsRound_le_jsRound {p q : ℚ} (h : p ≤ q) : jsRound p ≤ jsRound q := by
  rw [jsRound_eq_floor, jsRound_eq_floor]
  exact Int.floor_le_floor (by linarith)

/-- `jsRound` of a non-negative rational is non-negative. -/
theorem jsRound_nonneg {q : ℚ} (h : 0 ≤ q) : 0 ≤ jsRound q := by
  have h0 : (0 : ℤ) = ⌊(0 : ℚ)⌋ := by simp
  rw [jsRound_eq_floor, h0]
  exact Int.floor_le_floor (by linarith)

/-- `jsRound` fixes integers. -/
theorem jsRound_intCast (n : ℤ) : jsRound ((n : ℚ)) = n := by
  rw [jsRound_eq_floor, Int.floor_int_add]
  norm_num

/-- Hex encoding distributes over string append. -/
theorem strToHexChars_append (s t : String) :
    strToHexChars (s ++ t) = strToHexChars s ++ strToHexChars t := by
  simp [strToHexChars, String.toList, String.data_append]

/-- Hex encoding doubles the character count. -/
theorem length_strToHexChars (s : String) :
    (strToHexChars s).length = 2 * s.toList.length := by
  unfold strToHexChars
  induction s.toList with
  | nil => simp
  | cons c cs ih => simp [ih]; ring

/-! ## C1 — zero ecosystem activity short-circuit -/

/-- C1 counterexample: a well-formed signal whose total ecosystem commit
count is 0 but which has a detected ecosystem repository is NOT given
the all-zero reject opinion: the fallback scores it with
authenticity 75, final score 30 and `authentic = false`, and when a key
and a parsable oracle response exist the oracle IS consulted.  This
refutes the claim that `ecosystemCommitTotal == 0` alone forces the
zero-reject opinion without consulting the oracle (the code's guard is
`hasCeloContribution`, i.e. "no repository detected"). -/
theorem verifier_scores_zero_commit_signal :
    analysisZeroCommits.wf ∧
    analysisZeroCommits.celoContributionCount = 0 ∧
    (verifyWithAI analysisZeroCommits "COMMIT" .noKey).1.authentic = false ∧
    (verifyWithAI analysisZeroCommits "COMMIT" .noKey).1.authenticity = 75 ∧
    (verifyWithAI analysisZeroCommits "COMMIT" .noKey).1.finalScore = 30 ∧
    (verifyWithAI analysisZeroCommits "COMMIT"
        (.parsed parsedOracleSample)).2 = true := by
  refine ⟨by decide, by decide, ?_, ?_, ?_, ?_⟩ <;>
    simp [verifyWithAI, generateDefaultVerification, analysisZeroCommits,
      repoZeroCommits, jsRound_eq_floor] <;>
    norm_num

/-- C1 (amended): for every signal with NO detected ecosystem repository
(`hasCeloContribution = false`) — rather than merely a zero total commit
count — the advisory verifier returns recommendation `reject` with
impact, quality, authenticity and final score all 0 and
`authentic = true`, and the external oracle is never contacted,
whatever its outcome would have been. -/
theorem verifier_no_repo_signal_zero_reject (a : ContributionAnalysis)
    (type : String) (oracle : OracleOutcome) (h : a.hasCeloContribution = false) :
    (verifyWithAI a type oracle).1.authentic = true ∧
    (verifyWithAI a type oracle).1.impactScore = 0 ∧
    (verifyWithAI a type oracle).1.qualityScore = 0 ∧
    (verifyWithAI a type oracle).1.authenticity = 0 ∧
    (verifyWithAI a type oracle).1.finalScore = 0 ∧
    (verifyWithAI a type oracle).1.recommendation = "reject" ∧
    (verifyWithAI a type oracle).2 = false := by
  cases oracle <;> simp [verifyWithAI, generateDefaultVerification, h]

/-- Witness for C1's amended theorem at a concrete no-repository signal
and a concrete oracle outcome. -/
theorem verifier_no_repo_signal_zero_reject_witness :
    analysisNoRepos.hasCeloContribution = false ∧
    ((verifyWithAI analysisNoRepos "COMMIT" (.parsed parsedOracleSample)).1.finalScore = 0 ∧
     (verifyWithAI analysisNoRepos "COMMIT" (.parsed parsedOracleSample)).1.recommendation = "reject" ∧
     (verifyWithAI analysisNoRepos "COMMIT" (.parsed parsedOracleSample)).2 = false) :=
  ⟨by decide,
   (verifier_no_repo_signal_zero_reject analysisNoRepos "COMMIT"
      (.parsed parsedOracleSample) (by decide)).2.2.2.2.1,
   (verifier_no_repo_signal_zero_reject analysisNoRepos "COMMIT"
      (.parsed parsedOracleSample) (by decide)).2.2.2.2.2.1,
   (verifier_no_repo_signal_zero_reject analysisNoRepos "COMMIT"
      (.parsed parsedOracleSample) (by decide)).2.2.2.2.2.2⟩

/-! ## C3 — badge gating ignores the previous total -/

/-- C3: the executor decides badge minting from
`checkTierQualification newTotalScore` alone; the `currentTotalScore`
argument is never consulted.  With old total 120 and new total 150 —
both already `BUILDER` — a `BUILDER` mint IS attempted (the claim and
the specification say it must be skipped because no tier threshold is
newly crossed); with old total 90 and new total 110 a mint is likewise
attempted (as claimed). -/
theorem executor_mints_inside_unchanged_tier :
    Agent.checkTierQualification 120 = some "BUILDER" ∧
    Agent.checkTierQualification 150 = some "BUILDER" ∧
    Agent.mintAttempted
      (Agent.executeOnchain hashJsonConst agentContributionSample 30 120 150
        chainEnvAllOk).2 = true ∧
    Agent.mintAttempted
      (Agent.executeOnchain hashJsonConst agentContributionSample 20 90 110
        chainEnvAllOk).2 = true := by
  refine ⟨by decide, by decide, ?_, ?_⟩ <;>
    simp [Agent.executeOnchain, Agent.checkTierQualification, Agent.mintAttempted,
      chainEnvAllOk]

/-! ## C4 — partial failure at the score-update step -/

/-- C4 counterexample: when the score-increase step fails with raw cause
`"boom"` after registration succeeded, the executor's report is exactly
the raw cause; it does not name the step (`"ScoreUpdating"` occurs
nowhere in the report), refuting the claim's final conjunct. -/
theorem executor_score_failure_report_lacks_step_name :
    (Agent.executeOnchain hashJsonConst agentContributionSample 30 120 150
        chainEnvScoreFail).1 =
      { success := false, registryTx := some "0xreg", scoreTx := none,
        badgeTx := none, error := some "boom" } ∧
    strMentions "ScoreUpdating" "boom" = false := by
  constructor
  · simp [Agent.executeOnchain, chainEnvScoreFail]
  · decide

/-- C4 (amended): a confirmation failure of the score-increase step
halts the pipeline at that step with no rollback: the result has
`success = false`, `registryTx` set, `scoreTx` and `badgeTx` absent, and
the reported failure is the raw cause message (the step name is not
included in the report); no further ledger call is attempted. -/
theorem executor_score_failure_halts_no_rollback
    (hashJson : Agent.Contribution → String) (c : Agent.Contribution)
    (delta cur new : ℤ) (env : Agent.ChainEnv) (rtx cause : String)
    (hreg : env.registryOutcome = .ok rtx)
    (hscore : env.scoreOutcome = .error cause) :
    (Agent.executeOnchain hashJson c delta cur new env).1 =
      { success := false, registryTx := some rtx, scoreTx := none,
        badgeTx := none, error := some cause } ∧
    (Agent.executeOnchain hashJson c delta cur new env).2 =
      [Agent.ChainCall.registerContribution c.user (hashJson c) delta,
       Agent.ChainCall.increaseScore c.user delta] := by
  unfold Agent.executeOnchain
  rw [hreg, hscore]
  exact ⟨rfl, rfl⟩

/-- Witness for C4's amended theorem at a concrete failing ledger. -/
theorem executor_score_failure_halts_no_rollback_witness :
    chainEnvScoreFail.registryOutcome = .ok "0xreg" ∧
    chainEnvScoreFail.scoreOutcome = .error "boom" ∧
    (Agent.executeOnchain hashJsonConst agentContributionSample 30 120 150
        chainEnvScoreFail).1 =
      { success := false, registryTx := some "0xreg", scoreTx := none,
        badgeTx := none, error := some "boom" } :=
  ⟨rfl, rfl,
   (executor_score_failure_halts_no_rollback hashJsonConst agentContributionSample
      30 120 150 chainEnvScoreFail "0xreg" "boom" rfl rfl).1⟩

/-! ## C7 — badge token identifiers -/

set_option maxRecDepth 4000 in
/-- C7 counterexample: for a concrete 42-character address the
agent-side token identifier for `BUILDER` equals the one for `LEADER`
(the identifier does not depend on the tier), and the agent-side and
client-side generators disagree on the very same `(address, tier)`
pair. -/
theorem badge_token_id_tier_blind_and_generators_disagree :
    Agent.generateBadgeTokenId sampleAddr "BUILDER" =
      Agent.generateBadgeTokenId sampleAddr "LEADER" ∧
    Agent.generateBadgeTokenId sampleAddr "BUILDER" ≠
      BadgeMinting.generateBadgeTokenId sampleAddr "BUILDER" := by
  constructor
  · decide
  · decide

/-- C7 (amended): each generator is a deterministic function of the pair
`(address, tier)`, but because the identifier is the hex encoding of
`lowercase(address) + tier` truncated to 64 (agent) respectively 62
(client) hex characters, and the lower-cased address alone already
yields at least 64 hex characters, the identifier depends only on a
prefix of the address and not on the tier at all: for every address of
at least 32 characters, any two tiers receive the same identifier from
each generator. -/
theorem badge_token_id_ignores_tier (addr : String)
    (h : 32 ≤ (jsToLower addr).toList.length) (t t' : String) :
    Agent.generateBadgeTokenId addr t = Agent.generateBadgeTokenId addr t' ∧
    BadgeMinting.generateBadgeTokenId addr t =
      BadgeMinting.generateBadgeTokenId addr t' := by
  have key : ∀ n : ℕ, n ≤ 64 →
      ∀ u : String, (strToHexChars (jsToLower addr ++ u)).take n =
        (strToHexChars (jsToLower addr)).take n := by
    intro n hn u
    rw [strToHexChars_append]
    refine List.take_append_of_le_length ?_
    rw [length_strToHexChars]
    omega
  constructor
  · unfold Agent.generateBadgeTokenId
    rw [key 64 (by omega) t, key 64 (by omega) t']
  · unfold BadgeMinting.generateBadgeTokenId
    rw [key 62 (by omega) t, key 62 (by omega) t']

set_option maxRecDepth 4000 in
/-- Witness for C7's amended theorem at a concrete address and tier
pair. -/
theorem badge_token_id_ignores_tier_witness :
    32 ≤ (jsToLower sampleAddr).toList.length ∧
    Agent.generateBadgeTokenId sampleAddr "CONTRIBUTOR" =
      Agent.generateBadgeTokenId sampleAddr "LEADER" :=
  ⟨by decide,
   (badge_token_id_ignores_tier sampleAddr (by decide) "CONTRIBUTOR" "LEADER").1⟩

/-! ## C2 — score calculator bounds and monotonicity -/

/-- Monotone step for the four-factor product of the score
calculator. -/
theorem scoreProd_mono {b m1 m1' m2 m2' m3 m3' : ℚ} (hb : 0 ≤ b)
    (h1 : 0 ≤ m1) (h2 : 0 ≤ m2) (h3 : 0 ≤ m3)
    (l1 : m1 ≤ m1') (l2 : m2 ≤ m2') (l3 : m3 ≤ m3') :
    b * m1 * m2 * m3 ≤ b * m1' * m2' * m3' := by
  have hb1 : 0 ≤ b * m1' := mul_nonneg hb (le_trans h1 l1)
  have hb2 : 0 ≤ b * m1' * m2' := mul_nonneg hb1 (le_trans h2 l2)
  calc b * m1 * m2 * m3 ≤ b * m1' * m2 * m3 :=
        mul_le_mul_of_nonneg_right
          (mul_le_mul_of_nonneg_right (mul_le_mul_of_nonneg_left l1 hb) h2) h3
    _ ≤ b * m1' * m2' * m3 :=
        mul_le_mul_of_nonneg_right (mul_le_mul_of_nonneg_left l2 hb1) h3
    _ ≤ b * m1' * m2' * m3' := mul_le_mul_of_nonneg_left l3 hb2

/-- The optional wallet-bonus multiplication preserves order. -/
theorem walletBonus_mono (w : Bool) {s s' : ℚ} (h : s ≤ s') :
    (if w then s * 1.20 else s) ≤ (if w then s' * 1.20 else s') := by
  cases w
  · simpa using h
  · simp only [if_pos]
    nlinarith

/-- The optional wallet-bonus multiplication preserves non-negativity. -/
theorem walletBonus_nonneg (w : Bool) {s : ℚ} (h : 0 ≤ s) :
    0 ≤ (if w then s * 1.20 else s) := by
  cases w
  · simpa using h
  · simp only [if_pos]
    nlinarith

/-- C2: for every valid contribution type with base score `b` and every
opinion with non-negative component scores, the score calculator's
output is an integer (an `ℤ` by construction, via `Math.round`) in
`[0, baseScore × 3.0]`, and, holding the other inputs fixed, it is
monotonically non-decreasing in each of `impactScore`, `qualityScore`
and `authenticity`. -/
theorem calculateFinalScore_bounded_monotone
    (type : String) (b : ℕ) (hb : BASE_SCORES.lookup type = some b)
    (r : AIVerificationResult) (w : Bool)
    (hi : 0 ≤ r.impactScore) (hq : 0 ≤ r.qualityScore)
    (ha : 0 ≤ r.authenticity) :
    (0 ≤ calculateFinalScore r (b : ℚ) w ∧
      calculateFinalScore r (b : ℚ) w ≤ 3 * (b : ℤ)) ∧
    (∀ j, r.impactScore ≤ j →
      calculateFinalScore r (b : ℚ) w ≤
        calculateFinalScore { r with impactScore := j } (b : ℚ) w) ∧
    (∀ j, r.qualityScore ≤ j →
      calculateFinalScore r (b : ℚ) w ≤
        calculateFinalScore { r with qualityScore := j } (b : ℚ) w) ∧
    (∀ j, r.authenticity ≤ j →
      calculateFinalScore r (b : ℚ) w ≤
        calculateFinalScore { r with authenticity := j } (b : ℚ) w) := by
  clear hb
  obtain ⟨au, i, q, a, f, re, k, rec, wb⟩ := r
  simp only at hi hq ha
  have hbq : (0 : ℚ) ≤ (b : ℚ) := by positivity
  have hcap : ((b : ℚ) * 3.0) = (((3 * b : ℤ) : ℚ)) := by push_cast; ring
  by_cases h1 : f = 0 ∨ rec = "reject"
  · simp only [calculateFinalScore, h1, if_true, if_pos]
    exact ⟨⟨le_refl 0, by positivity⟩,
      fun j hj => le_refl 0, fun j hj => le_refl 0, fun j hj => le_refl 0⟩
  · by_cases h2 : au = false
    · simp only [calculateFinalScore, if_neg h1, h2, if_pos]
      refine ⟨⟨jsRound_nonneg (by positivity), ?_⟩,
        fun j hj => le_refl _, fun j hj => le_refl _, fun j hj => le_refl _⟩
      have step : jsRound ((b : ℚ) * 0.25) ≤ jsRound (((3 * b : ℤ) : ℚ)) := by
        apply jsRound_le_jsRound
        push_cast
        nlinarith
      rw [jsRound_intCast] at step
      exact step
    · have p1 : (0 : ℚ) ≤ 1.0 + i / 150 := by
        have := div_nonneg hi (by norm_num : (0 : ℚ) ≤ 150)
        nlinarith
      have p2 : (0 : ℚ) ≤ 1.0 + q / 160 := by
        have := div_nonneg hq (by norm_num : (0 : ℚ) ≤ 160)
        nlinarith
      have p3 : (0 : ℚ) ≤ 1.0 + a / 200 := by
        have := div_nonneg ha (by norm_num : (0 : ℚ) ≤ 200)
        nlinarith
      have prodNonneg : (0 : ℚ) ≤ (b : ℚ) * (1.0 + i / 150) * (1.0 + q / 160) *
          (1.0 + a / 200) :=
        mul_nonneg (mul_nonneg (mul_nonneg hbq p1) p2) p3
      simp only [calculateFinalScore, if_neg h1, h2, if_neg, Bool.false_eq_true,
        not_false_iff]
      constructor
      · constructor
        · exact jsRound_nonneg
            (le_min (walletBonus_nonneg w prodNonneg) (by positivity))
        · have step : jsRound (min
              (if w then (b : ℚ) * (1.0 + i / 150) * (1.0 + q / 160) *
                  (1.0 + a / 200) * 1.20
               else (b : ℚ) * (1.0 + i / 150) * (1.0 + q / 160) * (1.0 + a / 200))
              ((b : ℚ) * 3.0)) ≤ jsRound (((3 * b : ℤ) : ℚ)) := by
            apply jsRound_le_jsRound
            rw [← hcap]
            exact min_le_right _ _
          rw [jsRound_intCast] at step
          exact step
      · refine ⟨?_, ?_, ?_⟩ <;> intro j hj <;>
          apply jsRound_le_jsRound <;>
          refine min_le_min (walletBonus_mono w ?_) (le_refl _)
        · refine scoreProd_mono hbq p1 p2 p3 ?_ (le_refl _) (le_refl _)
          have : i / 150 ≤ j / 150 := by
            apply div_le_div_of_nonneg_right hj  -- placeholder; fixed below if wrong
            norm_num
          linarith
        · refine scoreProd_mono hbq p1 p2 p3 (le_refl _) ?_ (le_refl _)
          have : q / 160 ≤ j / 160 := by
            apply div_le_div_of_nonneg_right hj
            norm_num
          linarith
        · refine scoreProd_mono hbq p1 p2 p3 (le_refl _) (le_refl _) ?_
          have : a / 200 ≤ j / 200 := by
            apply div_le_div_of_nonneg_right hj
            norm_num
          linarith

/-- Witness for C2 at a concrete type, base score and opinion. -/
theorem calculateFinalScore_bounded_monotone_witness :
    BASE_SCORES.lookup "COMMIT" = some 10 ∧
    (0 ≤ aiResultSample.impactScore ∧ 0 ≤ aiResultSample.qualityScore ∧
      0 ≤ aiResultSample.authenticity) ∧
    (0 ≤ calculateFinalScore aiResultSample ((10 : ℕ) : ℚ) true ∧
      calculateFinalScore aiResultSample ((10 : ℕ) : ℚ) true ≤ 3 * ((10 : ℕ) : ℤ)) :=
  ⟨rfl, ⟨by norm_num [aiResultSample], by norm_num [aiResultSample],
      by norm_num [aiResultSample]⟩,
   (calculateFinalScore_bounded_monotone "COMMIT" 10 rfl aiResultSample true
      (by norm_num [aiResultSample]) (by norm_num [aiResultSample])
      (by norm_num [aiResultSample])).1⟩

/-! ## C8 — the deterministic fallback formula -/

/-- C8 counterexample: the fallback quality score caps each
repository's stars at 100 before averaging, while the claim's formula
(`clamp(avgRepoStars + languages × 8, 0, 100)`) averages the raw star
counts: on a signal with star counts 200 and 0 and no languages the code
reports quality 50 where the claim's formula gives 100. -/
theorem fallback_quality_caps_repo_stars :
    (verifyWithAI analysisStarCap "COMMIT" .noKey).1.qualityScore = 50 ∧
    specFallbackQuality analysisStarCap = 100 ∧
    (50 : ℚ) ≠ 100 := by
  refine ⟨?_, ?_, by norm_num⟩ <;>
    simp [verifyWithAI, generateDefaultVerification, specFallbackQuality,
      analysisStarCap, jsRound_eq_floor] <;>
    norm_num

/-- C8 (amended): when the external oracle is unavailable (no API key,
transport failure, non-2xx response, or unparsable output) and the
signal has a detected ecosystem repository, the verifier's opinion
equals the deterministic fallback formula with each repository's star
count capped at 100 before averaging:
`impact = min(followers × 1.5 + min(commits × 5, 100) × 0.4, 100)`,
`quality = min(cappedAvgRepoStars + languages × 8, 100)`,
`authenticity = 90 if commits > 0 else 75`,
`final = 0.3 × impact + 0.3 × quality + 0.4 × authenticity` (all four
reported rounded), and the recommendation is `accept` if the unrounded
final exceeds 70, `review` if it exceeds 50, else `reject`. -/
theorem verifier_fallback_formula (a : ContributionAnalysis) (type : String)
    (oracle : OracleOutcome) (hun : oracle.unavailable = true)
    (h : a.hasCeloContribution = true) :
    (verifyWithAI a type oracle).1.authentic =
      decide (a.celoContributionCount > 0) ∧
    (verifyWithAI a type oracle).1.impactScore =
      ((jsRound (fallbackImpact a) : ℤ) : ℚ) ∧
    (verifyWithAI a type oracle).1.qualityScore =
      ((jsRound (fallbackQuality a) : ℤ) : ℚ) ∧
    (verifyWithAI a type oracle).1.authenticity =
      ((jsRound (fallbackAuthenticity a) : ℤ) : ℚ) ∧
    (verifyWithAI a type oracle).1.finalScore =
      ((jsRound (fallbackFinal a) : ℤ) : ℚ) ∧
    (verifyWithAI a type oracle).1.recommendation = fallbackRecommendation a := by
  cases oracle with
  | parsed r => simp [OracleOutcome.unavailable] at hun
  | noKey =>
    simp [verifyWithAI, generateDefaultVerification, h, fallbackImpact,
      fallbackQuality, fallbackRepoQuality, fallbackAuthenticity, fallbackFinal,
      fallbackRecommendation]
  | transportError =>
    simp [verifyWithAI, generateDefaultVerification, h, fallbackImpact,
      fallbackQuality, fallbackRepoQuality, fallbackAuthenticity, fallbackFinal,
      fallbackRecommendation]
  | httpError =>
    simp [verifyWithAI, generateDefaultVerification, h, fallbackImpact,
      fallbackQuality, fallbackRepoQuality, fallbackAuthenticity, fallbackFinal,
      fallbackRecommendation]
  | noContent =>
    simp [verifyWithAI, generateDefaultVerification, h, fallbackImpact,
      fallbackQuality, fallbackRepoQuality, fallbackAuthenticity, fallbackFinal,
      fallbackRecommendation]
  | unparsable =>
    simp [verifyWithAI, generateDefaultVerification, h, fallbackImpact,
      fallbackQuality, fallbackRepoQuality, fallbackAuthenticity, fallbackFinal,
      fallbackRecommendation]

/-- Witness for C8's amended theorem at a concrete signal and a
transport failure. -/
theorem verifier_fallback_formula_witness :
    OracleOutcome.transportError.unavailable = true ∧
    analysisStarCap.hasCeloContribution = true ∧
    (verifyWithAI analysisStarCap "COMMIT" .transportError).1.qualityScore =
      ((jsRound (fallbackQuality analysisStarCap) : ℤ) : ℚ) :=
  ⟨rfl, rfl,
   (verifier_fallback_formula analysisStarCap "COMMIT" .transportError rfl
      rfl).2.2.1⟩

/-! ## C9 — tier-state monotonicity -/

/-- C9 counterexample: a repeat update at `LEADER` overwrites the
already-set `leader_achieved_at` with the current time instead of
keeping it (`existing ?? now`): the stored `t3` becomes `t9`. -/
theorem updateUserTier_overwrites_leader_timestamp :
    (updateUserTier (some userTierLeaderRow) userTierLeaderRow.user_address 820
        "LEADER" "t9").leader_achieved_at = some "t9" ∧
    userTierLeaderRow.leader_achieved_at = some "t3" ∧
    ("t9" : String) ≠ "t3" := by
  refine ⟨?_, rfl, by decide⟩
  simp [updateUserTier, mergeCol]

/-- C9 (amended): a tier update with a non-decreasing tier on a
consistent stored row (a set builder timestamp implies at least
`BUILDER`; a set contributor timestamp implies at least `CONTRIBUTOR`)
preserves the builder and contributor achievement timestamps once set,
via the merge `existing ?? now` where they are touched at all; the
stored `current_tier` is replaced by the new tier; but
`leader_achieved_at` is overwritten with the current time on every
update whose new tier is `LEADER`, rather than merged. -/
theorem updateUserTier_monotone_merge
    (e : UserTier) (userAddress : String) (newScore : ℤ) (newTier now : String)
    (h1 : tierRank e.current_tier ≤ tierRank newTier)
    (h2 : e.builder_achieved_at.isSome = true → e.current_tier ≠ "UNRANKED")
    (h3 : e.contributor_achieved_at.isSome = true → 2 ≤ tierRank e.current_tier) :
    (updateUserTier (some e) userAddress newScore newTier now).current_tier =
      newTier ∧
    (e.builder_achieved_at.isSome = true →
      (updateUserTier (some e) userAddress newScore newTier now).builder_achieved_at =
        e.builder_achieved_at) ∧
    (e.contributor_achieved_at.isSome = true →
      (updateUserTier (some e) userAddress newScore newTier now).contributor_achieved_at =
        e.contributor_achieved_at) ∧
    (newTier = "LEADER" →
      (updateUserTier (some e) userAddress newScore newTier now).leader_achieved_at =
        some now) := by
  refine ⟨by simp [updateUserTier], ?_, ?_, ?_⟩
  · intro hset
    obtain ⟨t, ht⟩ := Option.isSome_iff_exists.mp hset
    have hcur := h2 hset
    by_cases hB : newTier = "BUILDER"
    · simp [updateUserTier, mergeCol, hB, hcur]
    · by_cases hC : newTier = "CONTRIBUTOR"
      · by_cases hcc : e.current_tier = "CONTRIBUTOR"
        · simp [updateUserTier, mergeCol, hB, hC, hcc, ht]
        · simp [updateUserTier, mergeCol, hB, hC, hcc, ht]
      · by_cases hL : newTier = "LEADER"
        · simp [updateUserTier, mergeCol, hB, hC, hL, ht]
        · simp [updateUserTier, mergeCol, hB, hC, hL]
  · intro hset
    obtain ⟨t, ht⟩ := Option.isSome_iff_exists.mp hset
    have hrank := h3 hset
    by_cases hB : newTier = "BUILDER"
    · exfalso
      have hb1 : tierRank "BUILDER" = 1 := by decide
      rw [hB, hb1] at h1
      omega
    · by_cases hC : newTier = "CONTRIBUTOR"
      · have hcur : e.current_tier = "CONTRIBUTOR" := by
          have hc2 : tierRank "CONTRIBUTOR" = 2 := by decide
          rw [hC, hc2] at h1
          by_cases hcl : e.current_tier = "LEADER"
          · exfalso
            rw [hcl] at h1
            have : tierRank "LEADER" = 3 := by decide
            omega
          · by_cases hcc : e.current_tier = "CONTRIBUTOR"
            · exact hcc
            · exfalso
              have hle : tierRank e.current_tier ≤ 1 := by
                unfold tierRank
                rw [if_neg hcl, if_neg hcc]
                split_ifs <;> omega
              omega
        simp [updateUserTier, mergeCol, hB, hC, hcur]
      · by_cases hL : newTier = "LEADER"
        · simp [updateUserTier, mergeCol, hB, hC, hL, ht]
        · simp [updateUserTier, mergeCol, hB, hC, hL]
  · intro hL
    simp [updateUserTier, mergeCol, hL]

/-- Witness for C9's amended theorem: a `CONTRIBUTOR` row promoted to
`LEADER` keeps its contributor timestamp and gets `leader_achieved_at`
stamped with the current time. -/
theorem updateUserTier_monotone_merge_witness :
    tierRank userTierContributorRow.current_tier ≤ tierRank "LEADER" ∧
    (updateUserTier (some userTierContributorRow)
        userTierContributorRow.user_address 500 "LEADER" "t9").contributor_achieved_at =
      userTierContributorRow.contributor_achieved_at ∧
    (updateUserTier (some userTierContributorRow)
        userTierContributorRow.user_address 500 "LEADER" "t9").leader_achieved_at =
      some "t9" :=
  ⟨by decide,
   (updateUserTier_monotone_merge userTierContributorRow
      userTierContributorRow.user_address 500 "LEADER" "t9" (by decide)
      (fun _ => by decide) (fun _ => by decide)).2.2.1 (by decide),
   (updateUserTier_monotone_merge userTierContributorRow
      userTierContributorRow.user_address 500 "LEADER" "t9" (by decide)
      (fun _ => by decide) (fun _ => by decide)).2.2.2 rfl⟩

/-! ## C6 — case-insensitive address matching -/

/-- C6: ownership verification equates two addresses exactly when their
lower-cased forms match — so a declared and a bio-extracted address
differing only in letter case are accepted as matching — and any
mismatch makes the handler reject the submission with the hard
wallet-mismatch error before any verification or persistence. -/
theorem walletMatch_lowercase_equality :
    (∀ a b : String, walletMatch a b = true ↔ jsToLower a = jsToLower b) ∧
    (∀ (getAddr : String → Option String) (body : SubmitBody)
        (oracle : OracleOutcome) (db : DbEnv) (table : List ContributionRow)
        (freshId now : ℕ) (ga : ContributionAnalysis) (bio na : String),
      ga.detectedWallet = some bio →
      getAddr body.address = some na →
      walletMatch na bio = false →
      body.address ≠ "" → body.type ≠ "" → body.link ≠ "" →
      (BASE_SCORES.lookup body.type).isNone = false →
      (POST getAddr body (some ga) oracle db table freshId now).1 =
        .jsonError 400 "Wallet in GitHub bio does not match provided wallet.") := by
  constructor
  · intro a b
    simp [walletMatch]
  · intro getAddr body oracle db table freshId now ga bio na hbio hget hmm hA hT hL hbase
    simp [POST, hbio, hget, hmm, hA, hT, hL, hbase]

/-- Witness for C6 at concrete addresses: an upper-cased declared
address matches its lower-cased bio form, and a genuinely different
address is rejected with the wallet-mismatch error. -/
theorem walletMatch_lowercase_equality_witness :
    walletMatch "0xABCD000000000000000000000000000000000001"
      "0xabcd000000000000000000000000000000000001" = true ∧
    (POST getAddrId bodyMismatch (some analysisAccepted) .noKey dbEnvAllOk []
        1 5).1 =
      .jsonError 400 "Wallet in GitHub bio does not match provided wallet." :=
  ⟨(walletMatch_lowercase_equality.1 _ _).mpr (by decide),
   walletMatch_lowercase_equality.2 getAddrId bodyMismatch .noKey dbEnvAllOk []
     1 5 analysisAccepted "0xAbCd000000000000000000000000000000000001"
     bodyMismatch.address rfl rfl (by decide) (by decide) (by decide) (by decide)
     (by decide)⟩

/-! ## C10 — persistence failures do not change the response -/

/-- C10: for every submission that passes verification and scoring, the
`POST` handler returns the success response carrying the computed score,
new total and new tier, for every outcome of the contribution insert,
the tier update and the reputation-history insert — persistence
failures are logged but do not change the response. -/
theorem submit_response_ignores_persistence_failures
    (getAddr : String → Option String) (body : SubmitBody) (oracle : OracleOutcome)
    (ga : ContributionAnalysis) (bio na : String) (tierLookup : Option UserTier)
    (configured saveInsertOk tierUpdateOk historyOk : Bool)
    (table : List ContributionRow) (freshId now : ℕ)
    (hbio : ga.detectedWallet = some bio)
    (hget : getAddr body.address = some na)
    (hmatch : walletMatch na bio = true)
    (hA : body.address ≠ "") (hT : body.type ≠ "") (hL : body.link ≠ "")
    (hbase : (BASE_SCORES.lookup body.type).isNone = false)
    (hfs : calculateFinalScore (verifyWithAI ga body.type oracle).1
        (((BASE_SCORES.lookup body.type).getD 0 : ℕ) : ℚ) true ≠ 0)
    (hrec : (verifyWithAI ga body.type oracle).1.recommendation ≠ "reject") :
    (POST getAddr body (some ga) oracle
        { configured := configured, saveInsertOk := saveInsertOk,
          tierLookup := tierLookup, tierUpdateOk := tierUpdateOk,
          historyOk := historyOk } table freshId now).1 =
      .jsonOk
        (calculateFinalScore (verifyWithAI ga body.type oracle).1
          (((BASE_SCORES.lookup body.type).getD 0 : ℕ) : ℚ) true)
        ((tierLookup.map (·.total_score)).getD 0 +
          calculateFinalScore (verifyWithAI ga body.type oracle).1
            (((BASE_SCORES.lookup body.type).getD 0 : ℕ) : ℚ) true)
        (newTierFor ((tierLookup.map (·.total_score)).getD 0 +
          calculateFinalScore (verifyWithAI ga body.type oracle).1
            (((BASE_SCORES.lookup body.type).getD 0 : ℕ) : ℚ) true))
        (if (verifyWithAI ga body.type oracle).1.recommendation = "accept"
          then "verified" else "pending")
        (verifyWithAI ga body.type oracle).1.recommendation := by
  simp [POST, hbio, hget, hmatch, hA, hT, hL, hbase, hfs, hrec]

/-- Witness for C10: with every persistence write failing, the response
still carries score 30, new total 30 and tier `UNRANKED`. -/
theorem submit_response_ignores_persistence_failures_witness :
    calculateFinalScore (verifyWithAI analysisAccepted "COMMIT" .noKey).1
        (((BASE_SCORES.lookup "COMMIT").getD 0 : ℕ) : ℚ) true ≠ 0 ∧
    (POST getAddrId bodyAccepted (some analysisAccepted) .noKey
        { configured := false, saveInsertOk := false, tierLookup := none,
          tierUpdateOk := false, historyOk := false } [] 1 5).1 =
      .jsonOk
        (calculateFinalScore (verifyWithAI analysisAccepted "COMMIT" .noKey).1
          (((BASE_SCORES.lookup "COMMIT").getD 0 : ℕ) : ℚ) true)
        ((Option.map (·.total_score) (none : Option UserTier)).getD 0 +
          calculateFinalScore (verifyWithAI analysisAccepted "COMMIT" .noKey).1
            (((BASE_SCORES.lookup "COMMIT").getD 0 : ℕ) : ℚ) true)
        (newTierFor ((Option.map (·.total_score) (none : Option UserTier)).getD 0 +
          calculateFinalScore (verifyWithAI analysisAccepted "COMMIT" .noKey).1
            (((BASE_SCORES.lookup "COMMIT").getD 0 : ℕ) : ℚ) true))
        (if (verifyWithAI analysisAccepted "COMMIT" .noKey).1.recommendation = "accept"
          then "verified" else "pending")
        (verifyWithAI analysisAccepted "COMMIT" .noKey).1.recommendation :=
  ⟨by
    have hbs : (BASE_SCORES.lookup "COMMIT").getD 0 = 10 := rfl
    rw [hbs]
    norm_num [calculateFinalScore, verifyWithAI, generateDefaultVerification,
      analysisAccepted, jsRound_eq_floor, min_def]
    decide,
   submit_response_ignores_persistence_failures getAddrId bodyAccepted .noKey
     analysisAccepted "0xAbCd000000000000000000000000000000000001"
     bodyAccepted.address none false false false false [] 1 5 rfl rfl (by decide)
     (by decide) (by decide) (by decide) (by decide)
     (by
       have hbs : (BASE_SCORES.lookup bodyAccepted.type).getD 0 = 10 := rfl
       rw [hbs]
       norm_num [calculateFinalScore, verifyWithAI, generateDefaultVerification,
         analysisAccepted, bodyAccepted, jsRound_eq_floor, min_def]
       decide)
     (by
       norm_num [verifyWithAI, generateDefaultVerification, analysisAccepted,
         bodyAccepted, jsRound_eq_floor, min_def]
       decide)⟩

/-! ## C5 — contribution lifecycle -/

/-- Rows present after `saveContribution` are either pre-existing or the
freshly inserted row, which always carries status `"pending"`. -/
theorem saveContribution_mem (c : StoredContribution) (configured dbInsertOk : Bool)
    (table : List ContributionRow) (freshId now : ℕ) :
    ∀ r ∈ (saveContribution c configured dbInsertOk table freshId now).2,
      r ∈ table ∨ (r.id = freshId ∧ r.status = "pending") := by
  intro r hr
  unfold saveContribution at hr
  split_ifs at hr
  case _ => exact Or.inl hr
  case _ => exact Or.inl hr
  case _ => exact Or.inl hr
  case _ => exact Or.inl hr
  case _ => exact Or.inl hr
  case _ =>
    simp only [List.mem_append, List.mem_singleton] at hr
    rcases hr with hr | hr
    · exact Or.inl hr
    · subst hr
      exact Or.inr ⟨rfl, rfl⟩
  case _ => exact Or.inl hr

/-- Rows present after the `POST` handler are either pre-existing or the
freshly inserted pending row. -/
theorem POST_mem (getAddr : String → Option String) (body : SubmitBody)
    (analysisResult : Option ContributionAnalysis) (oracle : OracleOutcome)
    (db : DbEnv) (table : List ContributionRow) (freshId now : ℕ) :
    ∀ r ∈ (POST getAddr body analysisResult oracle db table freshId now).2.1,
      r ∈ table ∨ (r.id = freshId ∧ r.status = "pending") := by
  intro r hr
  unfold POST at hr
  repeat' split at hr
  all_goals try simp only at hr
  all_goals try (repeat' split at hr)
  all_goals try simp only at hr
  all_goals try exact Or.inl hr
  all_goals exact saveContribution_mem _ _ _ _ _ _ r hr

/-- The `POST` trace never contains a verified-update event (the
handler only logs store writes). -/
theorem POST_no_recordVerified (getAddr : String → Option String) (body : SubmitBody)
    (analysisResult : Option ContributionAnalysis) (oracle : OracleOutcome)
    (db : DbEnv) (table : List ContributionRow) (freshId now : ℕ) :
    ∀ i tx, Ev.recordVerifiedInDb i tx ∉
      (POST getAddr body analysisResult oracle db table freshId now).2.2 := by
  intro i tx hmem
  unfold POST at hmem
  repeat' split at hmem
  all_goals try simp only at hmem
  all_goals try (repeat' split at hmem)
  all_goals simp at hmem

/-- `updateContributionWithTx` emits either no event or exactly one
verified-update event carrying the confirmed transaction hash. -/
theorem updateContributionWithTx_events_shape (userAddress : String) (score : ℤ)
    (onChainTx : String) (configured dbOk : Bool) (table : List ContributionRow)
    (now : ℕ) :
    (updateContributionWithTx userAddress score onChainTx configured dbOk
        table now).2.2 = [] ∨
    ∃ i, (updateContributionWithTx userAddress score onChainTx configured dbOk
        table now).2.2 = [Ev.recordVerifiedInDb i onChainTx] := by
  unfold updateContributionWithTx
  repeat' split
  all_goals try simp only
  all_goals try (repeat' split)
  all_goals try exact Or.inl rfl
  all_goals try exact Or.inl trivial
  all_goals exact Or.inr ⟨_, rfl⟩

/-- Rows present after `updateContributionWithTx` are either untouched
or carry the confirmed transaction hash with status `"verified"`. -/
theorem updateContributionWithTx_mem (userAddress : String) (score : ℤ)
    (onChainTx : String) (configured dbOk : Bool) (table : List ContributionRow)
    (now : ℕ) :
    ∀ r ∈ (updateContributionWithTx userAddress score onChainTx configured dbOk
        table now).2.1,
      r ∈ table ∨ r.on_chain_tx = some onChainTx := by
  intro r hr
  unfold updateContributionWithTx at hr
  repeat' split at hr
  all_goals try simp only at hr
  all_goals try (repeat' split at hr)
  all_goals try exact Or.inl hr
  rcases List.mem_map.mp hr with ⟨x, hx, hfx⟩
  split at hfx
  · subst hfx
    exact Or.inr rfl
  · subst hfx
    exact Or.inl hx

/-- The client badge mint emits only badge events. -/
theorem mintBadge_no_recordVerified (userAddress : String) (totalScore : ℤ)
    (mintOutcome : Except String String) :
    ∀ i tx, Ev.recordVerifiedInDb i tx ∉
      (BadgeMinting.mintBadge userAddress totalScore mintOutcome).2 := by
  intro i tx hmem
  unfold BadgeMinting.mintBadge at hmem
  repeat' split at hmem
  all_goals simp at hmem

/-- In the client continuation, a verified-update event for a
transaction hash is always preceded by the confirmation event of that
very hash. -/
theorem clientAfterSubmit_rv_after_confirm (address : String) (resp : PostResponse)
    (chain : ClientChainEnv) (dbConfigured : Bool) (table : List ContributionRow)
    (now : ℕ) :
    ∀ i tx, Ev.recordVerifiedInDb i tx ∈
        (clientAfterSubmit address resp chain dbConfigured table now).2 →
      List.Sublist [Ev.scoreChainConfirmed tx, Ev.recordVerifiedInDb i tx]
        (clientAfterSubmit address resp chain dbConfigured table now).2 := by
  intro i tx hmem
  rcases resp with ⟨st, msg⟩ | ⟨score, newTotal, ntier, cst, rec⟩
  · simp [clientAfterSubmit] at hmem
  · by_cases hcond : score > 0 ∧ rec ≠ "reject"
    · rcases hout : chain.scoreUpdateOutcome with e | tx0
      · simp [clientAfterSubmit, hcond, hout] at hmem
      · have hcl : (clientAfterSubmit address (.jsonOk score newTotal ntier cst rec)
            chain dbConfigured table now).2 =
            Ev.scoreChainSubmitted address score :: Ev.scoreChainConfirmed tx0 ::
              ((updateContributionWithTx address score tx0 dbConfigured
                  chain.contribUpdateOk table now).2.2 ++
                (if newTotal ≥ 100 then
                  (BadgeMinting.mintBadge address newTotal chain.mintOutcome).2
                 else [])) := by
          simp [clientAfterSubmit, hcond, hout]
        rw [hcl] at hmem ⊢
        simp only [List.mem_cons, List.mem_append] at hmem
        rcases hmem with hmem | hmem | hmem | hmem
        · exact absurd hmem (by simp)
        · exact absurd hmem (by simp)
        · rcases updateContributionWithTx_events_shape address score tx0
              dbConfigured chain.contribUpdateOk table now with hsh | ⟨i0, hsh⟩
          · rw [hsh] at hmem
            simp at hmem
          · rw [hsh] at hmem
            simp only [List.mem_singleton] at hmem
            rw [Ev.recordVerifiedInDb.injEq] at hmem
            obtain ⟨hi, htx⟩ := hmem
            subst hi
            subst htx
            rw [hsh]
            refine List.Sublist.cons _ (List.Sublist.cons₂ _ ?_)
            exact List.sublist_append_left _ _
        · exfalso
          by_cases hnt : newTotal ≥ 100
          · rw [if_pos hnt] at hmem
            exact mintBadge_no_recordVerified _ _ _ i tx hmem
          · rw [if_neg hnt] at hmem
            simp at hmem
    · simp [clientAfterSubmit, hcond] at hmem

/-- Rows present after the client continuation are either rows of the
incoming table or carry a transaction hash whose confirmation event is
in the client trace. -/
theorem clientAfterSubmit_mem (address : String) (resp : PostResponse)
    (chain : ClientChainEnv) (dbConfigured : Bool) (table : List ContributionRow)
    (now : ℕ) :
    ∀ r ∈ (clientAfterSubmit address resp chain dbConfigured table now).1,
      r ∈ table ∨ ∃ tx, r.on_chain_tx = some tx ∧
        Ev.scoreChainConfirmed tx ∈
          (clientAfterSubmit address resp chain dbConfigured table now).2 := by
  intro r hr
  rcases resp with ⟨st, msg⟩ | ⟨score, newTotal, ntier, cst, rec⟩
  · simp only [clientAfterSubmit] at hr
    exact Or.inl hr
  · by_cases hcond : score > 0 ∧ rec ≠ "reject"
    · rcases hout : chain.scoreUpdateOutcome with e | tx0
      · simp [clientAfterSubmit, hcond, hout] at hr
        exact Or.inl hr
      · have hcl : (clientAfterSubmit address (.jsonOk score newTotal ntier cst rec)
            chain dbConfigured table now).1 =
            (updateContributionWithTx address score tx0 dbConfigured
              chain.contribUpdateOk table now).2.1 := by
          simp [clientAfterSubmit, hcond, hout]
        rw [hcl] at hr
        rcases updateContributionWithTx_mem address score tx0 dbConfigured
            chain.contribUpdateOk table now r hr with hin | htx
        · exact Or.inl hin
        · refine Or.inr ⟨tx0, htx, ?_⟩
          simp [clientAfterSubmit, hcond, hout]
    · simp [clientAfterSubmit, hcond] at hr
      exact Or.inl hr

/-- C5: over the full submission pipeline, (1) any contribution record
the handler creates is created with status `"pending"` (whatever status
the route computed for its response object); (2) a stored record
transitions to `"verified"` only after the ledger confirms the
score-increase transaction — the verified-update event always follows
the confirmation event of the same transaction hash, and any newly
verified row carries that confirmed hash; and (3) when the computed
score delta is 0 or the recommendation is `reject`, the submission is
rejected with a 400 error at submission time: no record is stored and
no ledger call of any kind is made. -/
theorem contribution_record_lifecycle (getAddr : String → Option String)
    (body : SubmitBody) (analysisResult : Option ContributionAnalysis)
    (oracle : OracleOutcome) (db : DbEnv) (chain : ClientChainEnv)
    (table : List ContributionRow) (freshId now now2 : ℕ)
    (hfresh : ∀ r ∈ table, r.id ≠ freshId) :
    (∀ r ∈ (POST getAddr body analysisResult oracle db table freshId now).2.1,
      r.id = freshId → r.status = "pending") ∧
    (∀ i tx, Ev.recordVerifiedInDb i tx ∈
        (submitPipeline getAddr body analysisResult oracle db chain table
          freshId now now2).2.2 →
      List.Sublist [Ev.scoreChainConfirmed tx, Ev.recordVerifiedInDb i tx]
        (submitPipeline getAddr body analysisResult oracle db chain table
          freshId now now2).2.2) ∧
    (∀ r ∈ (submitPipeline getAddr body analysisResult oracle db chain table
        freshId now now2).2.1,
      r.status = "verified" →
      r ∈ table ∨ ∃ tx, r.on_chain_tx = some tx ∧
        Ev.scoreChainConfirmed tx ∈
          (submitPipeline getAddr body analysisResult oracle db chain table
            freshId now now2).2.2) ∧
    (∀ ga bio na, analysisResult = some ga → ga.detectedWallet = some bio →
      getAddr body.address = some na → walletMatch na bio = true →
      body.address ≠ "" → body.type ≠ "" → body.link ≠ "" →
      (BASE_SCORES.lookup body.type).isNone = false →
      (calculateFinalScore (verifyWithAI ga body.type oracle).1
          (((BASE_SCORES.lookup body.type).getD 0 : ℕ) : ℚ) true = 0 ∨
        (verifyWithAI ga body.type oracle).1.recommendation = "reject") →
      (∃ m, (submitPipeline getAddr body analysisResult oracle db chain table
        freshId now now2).1 = .jsonError 400 m) ∧
      (submitPipeline getAddr body analysisResult oracle db chain table
        freshId now now2).2.1 = table ∧
      (submitPipeline getAddr body analysisResult oracle db chain table
        freshId now now2).2.2 = []) := by
  have hTrace : (submitPipeline getAddr body analysisResult oracle db chain table
      freshId now now2).2.2 =
      (POST getAddr body analysisResult oracle db table freshId now).2.2 ++
        (clientAfterSubmit body.address
          (POST getAddr body analysisResult oracle db table freshId now).1 chain
          db.configured
          (POST getAddr body analysisResult oracle db table freshId now).2.1
          now2).2 := rfl
  have hTable : (submitPipeline getAddr body analysisResult oracle db chain table
      freshId now now2).2.1 =
      (clientAfterSubmit body.address
        (POST getAddr body analysisResult oracle db table freshId now).1 chain
        db.configured
        (POST getAddr body analysisResult oracle db table freshId now).2.1
        now2).1 := rfl
  refine ⟨?_, ?_, ?_, ?_⟩
  · intro r hr hid
    rcases POST_mem getAddr body analysisResult oracle db table freshId now r hr
      with hin | ⟨_, hpend⟩
    · exact absurd hid (hfresh r hin)
    · exact hpend
  · intro i tx hmem
    rw [hTrace] at hmem ⊢
    rcases List.mem_append.mp hmem with hs | hc
    · exact absurd hs
        (POST_no_recordVerified getAddr body analysisResult oracle db table
          freshId now i tx)
    · exact List.Sublist.trans
        (clientAfterSubmit_rv_after_confirm body.address _ chain db.configured _
          now2 i tx hc)
        (List.sublist_append_right _ _)
  · intro r hr hv
    rw [hTable] at hr
    rcases clientAfterSubmit_mem body.address _ chain db.configured _ now2 r hr
      with h1 | ⟨tx, htx, hconf⟩
    · rcases POST_mem getAddr body analysisResult oracle db table freshId now r h1
        with h2 | ⟨_, hpend⟩
      · exact Or.inl h2
      · rw [hpend] at hv
        exact absurd hv (by decide)
    · refine Or.inr ⟨tx, htx, ?_⟩
      rw [hTrace]
      exact List.mem_append.mpr (Or.inr hconf)
  · intro ga bio na heq hbio hget hmatch hA hT hL hbase hrej
    subst heq
    have hP : POST getAddr body (some ga) oracle db table freshId now =
        (.jsonError 400
          (if (verifyWithAI ga body.type oracle).1.reasoning = "" then
            "Contribution does not meet verification requirements. Ensure your GitHub profile has contributions to Celo ecosystem projects."
           else (verifyWithAI ga body.type oracle).1.reasoning), table, []) := by
      rcases hrej with h0 | hr1
      · simp [POST, hbio, hget, hmatch, hA, hT, hL, hbase, h0]
      · simp [POST, hbio, hget, hmatch, hA, hT, hL, hbase, hr1]
    refine ⟨⟨if (verifyWithAI ga body.type oracle).1.reasoning = "" then
        "Contribution does not meet verification requirements. Ensure your GitHub profile has contributions to Celo ecosystem projects."
      else (verifyWithAI ga body.type oracle).1.reasoning, ?_⟩, ?_, ?_⟩
    · show (POST getAddr body (some ga) oracle db table freshId now).1 = _
      rw [hP]
    · rw [hTable, hP]
      simp [clientAfterSubmit]
    · rw [hTrace, hP]
      simp [clientAfterSubmit]

/-- Witness for C5 at a concrete rejected submission (fallback
recommendation `reject`): the pipeline returns an error, stores nothing
and performs no ledger call. -/
theorem contribution_record_lifecycle_witness :
    (verifyWithAI analysisRejected "COMMIT" .noKey).1.recommendation = "reject" ∧
    (submitPipeline getAddrId bodyRejected (some analysisRejected) .noKey
        dbEnvAllOk clientChainAllOk [] 1 5 6).2.1 = [] ∧
    (submitPipeline getAddrId bodyRejected (some analysisRejected) .noKey
        dbEnvAllOk clientChainAllOk [] 1 5 6).2.2 = [] :=
  ⟨by
    norm_num [verifyWithAI, generateDefaultVerification, analysisRejected,
      repoZeroCommits, jsRound_eq_floor, min_def],
   (contribution_record_lifecycle getAddrId bodyRejected (some analysisRejected)
      .noKey dbEnvAllOk clientChainAllOk [] 1 5 6 (by simp)).2.2.2
     analysisRejected "0xeeee000000000000000000000000000000000001"
     bodyRejected.address rfl rfl rfl (by decide) (by decide) (by decide)
     (by decide) (by decide)
     (Or.inr (by
       norm_num [verifyWithAI, generateDefaultVerification, analysisRejected,
         repoZeroCommits, jsRound_eq_floor, min_def])) |>.2.1,
   (contribution_record_lifecycle getAddrId bodyRejected (some analysisRejected)
      .noKey dbEnvAllOk clientChainAllOk [] 1 5 6 (by simp)).2.2.2
     analysisRejected "0xeeee000000000000000000000000000000000001"
     bodyRejected.address rfl rfl rfl (by decide) (by decide) (by decide)
     (by decide) (by decide)
     (Or.inr (by
       norm_num [verifyWithAI, generateDefaultVerification, analysisRejected,
         repoZeroCommits, jsRound_eq_floor, min_def])) |>.2.2⟩
